import Mathlib

/-!
Verification of the transaction encoding and signing subsystem of the
`py-v-sdk` repository: the transaction request variants in
`py_v_sdk/tx_req.py`, their canonical signing bytes (`data_to_sign`) and
their broadcast payload projections.

Bytes are modelled as `List Nat`, each entry the value of one byte.
`struct.pack(">B"/">H"/">Q", n)` is modelled by `packBE 1/2/8 n`, the
big-endian fixed-width encoder (Python raises on overflow; theorems that
need exactness carry the corresponding `< 2 ^ (8 * w)` bound).
The supporting value types from `model.py`, `dbput.py` and `contract.py`
are not part of the sources at hand, so they are modelled from the spec,
as noted on each definition.
-/

namespace PyVSdk

/-- The function `packBE w n` is the big-endian `w`-byte encoding of `n`,
modelling Python `struct.pack` with formats `>B` (w = 1), `>H` (w = 2)
and `>Q` (w = 8); for `n < 2 ^ (8 * w)` it is the exact encoding. -/
def packBE : Nat → Nat → List Nat
  | 0, _ => []
  | w + 1, n => packBE w (n / 256) ++ [n % 256]

/-- The function `bytesToNat` decodes a big-endian byte string to the number it denotes. -/
def bytesToNat (bs : List Nat) : Nat :=
  bs.foldl (fun acc b => acc * 256 + b) 0

theorem packBE_length (w n : Nat) : (packBE w n).length = w := by
  induction w generalizing n with
  | zero => rfl
  | succ w ih => simp [packBE, ih]

theorem bytesToNat_packBE_two (n : Nat) (h : n < 65536) :
    bytesToNat (packBE 2 n) = n := by
  have h1 : n / 256 < 256 := by omega
  simp only [packBE, bytesToNat, List.nil_append, List.foldl, List.append_nil]
  have h2 : (n / 256) % 256 = n / 256 := Nat.mod_eq_of_lt h1
  omega

/-- The base58 alphabet used by the `base58` library. -/
def b58Alphabet : List Char :=
  "123456789ABCDEFGHJKLMNPQRSTUVWXYZabcdefghijkmnopqrstuvwxyz".toList

/-- One base58 digit as a character. -/
def b58Digit (d : Nat) : Char := b58Alphabet.getD d (Char.ofNat 63)

/-- Little-endian base58 digits of `n`, with explicit fuel (the fuel `n`
itself always suffices since the value shrinks by a factor of 58). -/
def natToB58Aux : Nat → Nat → List Char
  | 0, _ => []
  | _ + 1, 0 => []
  | fuel + 1, n + 1 => b58Digit ((n + 1) % 58) :: natToB58Aux fuel ((n + 1) / 58)

/-- Modelled from the spec: base58 text encoding (the `base58` library used
by `model.py` and `curve_25519.py`): leading zero bytes become leading `1`
characters, the remaining value is written big-endian in base 58. -/
def b58Encode (bs : List Nat) : String :=
  let zeros := bs.takeWhile (· == 0) |>.length
  String.mk (List.replicate zeros (b58Digit 0) ++ (natToB58Aux (bytesToNat bs) (bytesToNat bs)).reverse)

/-- Modelled from the spec: a Python `str` whose characters are one byte
each (the latin-1 view used by the SDK string wrappers). -/
def latin1Str (bs : List Nat) : String := String.mk (bs.map Char.ofNat)

/-- Modelled from the spec: `md.Str` (from `model.py`, not among the
sources): a variable-length payload; `data` is its text, `bytes` its raw
bytes (one byte per character), `b58_str` its base58 text encoding. -/
structure MStr where
  bytes : List Nat

def MStr.data (s : MStr) : String := latin1Str s.bytes

def MStr.b58_str (s : MStr) : String := b58Encode s.bytes

theorem MStr.data_length (s : MStr) : s.data.length = s.bytes.length := by
  simp [MStr.data, latin1Str, String.length]

/-- Modelled from the spec: `md.Addr` (from `model.py`): a fixed-length
raw byte sequence with a base58 text representation (`data`). -/
structure MAddr where
  bytes : List Nat

def MAddr.data (a : MAddr) : String := b58Encode a.bytes

/-- Modelled from the spec: `md.TXID` (from `model.py`): an opaque
fixed-length byte sequence with base58 text representation. -/
structure MTxId where
  bytes : List Nat

def MTxId.data (t : MTxId) : String := b58Encode t.bytes

/-- Modelled from the spec: `md.CtrtID` (from `model.py`): an opaque
fixed-length byte sequence with base58 text representation. -/
structure MCtrtId where
  bytes : List Nat

def MCtrtId.data (c : MCtrtId) : String := b58Encode c.bytes

/-- Modelled from the spec: `md.KeyPair` (from `model.py`): a public key
and a private key, each a fixed-length byte sequence. -/
structure KeyPair where
  pub : List Nat
  pri : List Nat

/-- Modelled from the spec: `ctrt.CtrtMeta` (from `contract.py`): the core
receives contract metadata as an already-serialized opaque byte blob;
`serialized` is the result of its `serialize()`. -/
structure CtrtMeta where
  serialized : List Nat

def CtrtMeta.serialize (c : CtrtMeta) : List Nat := c.serialized

/-- Modelled from the spec: `de.DataStack` (from `data_entry.py`): the
core receives the data stack as an already-serialized opaque byte blob;
`serialized` is the result of its `serialize()`. -/
structure DataStack where
  serialized : List Nat

def DataStack.serialize (d : DataStack) : List Nat := d.serialized

/-- Modelled from the spec: `ctrt.Ctrt.FuncIdx` (from `contract.py`): the
function selector, a small integer with a fixed-width serialized form. -/
structure FuncIdx where
  value : Nat

def FuncIdx.serialize (f : FuncIdx) : List Nat := packBE 2 f.value

/-- Type `TxType` from `tx_req.py`: the enum of transaction types. -/
inductive TxType
  | GENESIS
  | PAYMENT
  | LEASE
  | LEASE_CANCEL
  | MINTING
  | CONTEND_SLOTS
  | RELEASE_SLOTS
  | REGISTER_CONTRACT
  | EXECUTE_CONTRACT_FUNCTION
  | DB_PUT
deriving DecidableEq

/-- The numeric value of each `TxType` member, as in `tx_req.py`. -/
def TxType.value : TxType → Nat
  | .GENESIS => 1
  | .PAYMENT => 2
  | .LEASE => 3
  | .LEASE_CANCEL => 4
  | .MINTING => 5
  | .CONTEND_SLOTS => 6
  | .RELEASE_SLOTS => 7
  | .REGISTER_CONTRACT => 8
  | .EXECUTE_CONTRACT_FUNCTION => 9
  | .DB_PUT => 10

/-- Method `TxType.serialize`: `struct.pack(">B", self.value)`. -/
def TxType.serialize (t : TxType) : List Nat := packBE 1 t.value

/-- Constant `TxReq.FEE_SCALE` from `tx_req.py`. -/
def FEE_SCALE : Nat := 100

/-- The values of a broadcast payload map: plain numbers or text. -/
inductive PValue
  | int (n : Nat)
  | str (s : String)
deriving DecidableEq

/-- A broadcast payload: a key-value structure. -/
def Payload := List (String × PValue)

/-- Look a key up in a broadcast payload. -/
def getKey (m : List (String × PValue)) (k : String) : Option PValue :=
  (m.find? (fun p => p.1 == k)).map (fun p => p.2)

/-- Function `curve.sign` from `curve_25519.py`, with the two effects made
explicit: `calc` stands for the external `curve.calculateSignature`
primitive and `rand64` for the bytes drawn by `os.urandom(64)`. -/
def curveSign (calcSig : List Nat → List Nat → List Nat → List Nat)
    (rand64 : List Nat) (priKey : List Nat) (msg : List Nat) : List Nat :=
  calcSig rand64 priKey msg

/-- Class `PaymentTxReq` from `tx_req.py`. -/
structure PaymentTxReq where
  recipient : MAddr
  amount : Nat
  timestamp : Nat
  attachment : MStr
  fee : Nat

/-- Property `PaymentTxReq.data_to_sign` from `tx_req.py`. -/
def PaymentTxReq.data_to_sign (r : PaymentTxReq) : List Nat :=
  TxType.PAYMENT.serialize
  ++ packBE 8 r.timestamp
  ++ packBE 8 r.amount
  ++ packBE 8 r.fee
  ++ packBE 2 FEE_SCALE
  ++ r.recipient.bytes
  ++ packBE 2 r.attachment.data.length
  ++ r.attachment.bytes

/-- Method `TxReq.sign` from `tx_req.py`, specialised per variant. -/
def PaymentTxReq.sign (calcSig : List Nat → List Nat → List Nat → List Nat)
    (rand64 : List Nat) (r : PaymentTxReq) (kp : KeyPair) : List Nat :=
  curveSign calcSig rand64 kp.pri r.data_to_sign

/-- Method `PaymentTxReq.to_broadcast_payment_payload` from `tx_req.py`. -/
def PaymentTxReq.to_broadcast_payment_payload
    (calcSig : List Nat → List Nat → List Nat → List Nat) (rand64 : List Nat)
    (r : PaymentTxReq) (kp : KeyPair) : List (String × PValue) :=
  [ ("senderPublicKey", .str (b58Encode kp.pub)),
    ("recipient", .str r.recipient.data),
    ("amount", .int r.amount),
    ("fee", .int r.fee),
    ("feeScale", .int FEE_SCALE),
    ("timestamp", .int r.timestamp),
    ("attachment", .str r.attachment.b58_str),
    ("signature", .str (b58Encode (r.sign calcSig rand64 kp))) ]

/-- Class `LeaseTxReq` from `tx_req.py`. -/
structure LeaseTxReq where
  supernode_addr : MAddr
  amount : Nat
  timestamp : Nat
  fee : Nat

/-- Property `LeaseTxReq.data_to_sign` from `tx_req.py`. -/
def LeaseTxReq.data_to_sign (r : LeaseTxReq) : List Nat :=
  TxType.LEASE.serialize
  ++ r.supernode_addr.bytes
  ++ packBE 8 r.amount
  ++ packBE 8 r.fee
  ++ packBE 2 FEE_SCALE
  ++ packBE 8 r.timestamp

def LeaseTxReq.sign (calcSig : List Nat → List Nat → List Nat → List Nat)
    (rand64 : List Nat) (r : LeaseTxReq) (kp : KeyPair) : List Nat :=
  curveSign calcSig rand64 kp.pri r.data_to_sign

/-- Method `LeaseTxReq.to_broadcast_leasing_payload` from `tx_req.py`. -/
def LeaseTxReq.to_broadcast_leasing_payload
    (calcSig : List Nat → List Nat → List Nat → List Nat) (rand64 : List Nat)
    (r : LeaseTxReq) (kp : KeyPair) : List (String × PValue) :=
  [ ("senderPublicKey", .str (b58Encode kp.pub)),
    ("recipient", .str r.supernode_addr.data),
    ("amount", .int r.amount),
    ("fee", .int r.fee),
    ("feeScale", .int FEE_SCALE),
    ("timestamp", .int r.timestamp),
    ("signature", .str (b58Encode (r.sign calcSig rand64 kp))) ]

/-- Class `LeaseCancelTxReq` from `tx_req.py`. -/
structure LeaseCancelTxReq where
  leasing_tx_id : MTxId
  timestamp : Nat
  fee : Nat

/-- Property `LeaseCancelTxReq.data_to_sign` from `tx_req.py`. -/
def LeaseCancelTxReq.data_to_sign (r : LeaseCancelTxReq) : List Nat :=
  TxType.LEASE_CANCEL.serialize
  ++ packBE 8 r.fee
  ++ packBE 2 FEE_SCALE
  ++ packBE 8 r.timestamp
  ++ r.leasing_tx_id.bytes

def LeaseCancelTxReq.sign (calcSig : List Nat → List Nat → List Nat → List Nat)
    (rand64 : List Nat) (r : LeaseCancelTxReq) (kp : KeyPair) : List Nat :=
  curveSign calcSig rand64 kp.pri r.data_to_sign

/-- Method `LeaseCancelTxReq.to_broadcast_cancel_payload` from `tx_req.py`. -/
def LeaseCancelTxReq.to_broadcast_cancel_payload
    (calcSig : List Nat → List Nat → List Nat → List Nat) (rand64 : List Nat)
    (r : LeaseCancelTxReq) (kp : KeyPair) : List (String × PValue) :=
  [ ("senderPublicKey", .str (b58Encode kp.pub)),
    ("txId", .str r.leasing_tx_id.data),
    ("fee", .int r.fee),
    ("feeScale", .int FEE_SCALE),
    ("timestamp", .int r.timestamp),
    ("signature", .str (b58Encode (r.sign calcSig rand64 kp))) ]

/-- Class `RegCtrtTxReq` from `tx_req.py`. -/
structure RegCtrtTxReq where
  data_stack : DataStack
  ctrt_meta : CtrtMeta
  timestamp : Nat
  description : MStr
  fee : Nat

/-- Property `RegCtrtTxReq.data_to_sign` from `tx_req.py`. -/
def RegCtrtTxReq.data_to_sign (r : RegCtrtTxReq) : List Nat :=
  TxType.REGISTER_CONTRACT.serialize
  ++ packBE 2 r.ctrt_meta.serialize.length
  ++ r.ctrt_meta.serialize
  ++ packBE 2 r.data_stack.serialize.length
  ++ r.data_stack.serialize
  ++ packBE 2 r.description.data.length
  ++ r.description.bytes
  ++ packBE 8 r.fee
  ++ packBE 2 FEE_SCALE
  ++ packBE 8 r.timestamp

def RegCtrtTxReq.sign (calcSig : List Nat → List Nat → List Nat → List Nat)
    (rand64 : List Nat) (r : RegCtrtTxReq) (kp : KeyPair) : List Nat :=
  curveSign calcSig rand64 kp.pri r.data_to_sign

/-- Method `RegCtrtTxReq.to_broadcast_register_payload` from `tx_req.py`:
note that `description` is projected as its plain `data` text, unlike
`contract` and `initData` which are base58-encoded. -/
def RegCtrtTxReq.to_broadcast_register_payload
    (calcSig : List Nat → List Nat → List Nat → List Nat) (rand64 : List Nat)
    (r : RegCtrtTxReq) (kp : KeyPair) : List (String × PValue) :=
  [ ("senderPublicKey", .str (b58Encode kp.pub)),
    ("contract", .str (b58Encode r.ctrt_meta.serialize)),
    ("initData", .str (b58Encode r.data_stack.serialize)),
    ("description", .str r.description.data),
    ("fee", .int r.fee),
    ("feeScale", .int FEE_SCALE),
    ("timestamp", .int r.timestamp),
    ("signature", .str (b58Encode (r.sign calcSig rand64 kp))) ]

/-- Class `ExecCtrtFuncTxReq` from `tx_req.py`. -/
structure ExecCtrtFuncTxReq where
  ctrt_id : MCtrtId
  func_id : FuncIdx
  data_stack : DataStack
  timestamp : Nat
  attachment : MStr
  fee : Nat

/-- Property `ExecCtrtFuncTxReq.data_to_sign` from `tx_req.py`. -/
def ExecCtrtFuncTxReq.data_to_sign (r : ExecCtrtFuncTxReq) : List Nat :=
  TxType.EXECUTE_CONTRACT_FUNCTION.serialize
  ++ r.ctrt_id.bytes
  ++ r.func_id.serialize
  ++ packBE 2 r.data_stack.serialize.length
  ++ r.data_stack.serialize
  ++ packBE 2 r.attachment.data.length
  ++ r.attachment.bytes
  ++ packBE 8 r.fee
  ++ packBE 2 FEE_SCALE
  ++ packBE 8 r.timestamp

def ExecCtrtFuncTxReq.sign (calcSig : List Nat → List Nat → List Nat → List Nat)
    (rand64 : List Nat) (r : ExecCtrtFuncTxReq) (kp : KeyPair) : List Nat :=
  curveSign calcSig rand64 kp.pri r.data_to_sign

/-- Method `ExecCtrtFuncTxReq.to_broadcast_execute_payload` from `tx_req.py`. -/
def ExecCtrtFuncTxReq.to_broadcast_execute_payload
    (calcSig : List Nat → List Nat → List Nat → List Nat) (rand64 : List Nat)
    (r : ExecCtrtFuncTxReq) (kp : KeyPair) : List (String × PValue) :=
  [ ("senderPublicKey", .str (b58Encode kp.pub)),
    ("contractId", .str r.ctrt_id.data),
    ("functionIndex", .int r.func_id.value),
    ("functionData", .str (b58Encode r.data_stack.serialize)),
    ("attachment", .str r.attachment.b58_str),
    ("fee", .int r.fee),
    ("feeScale", .int FEE_SCALE),
    ("timestamp", .int r.timestamp),
    ("signature", .str (b58Encode (r.sign calcSig rand64 kp))) ]

/-- Modelled from the spec: `dp.DBPutKey` (from `dbput.py`, not among the
sources): wraps an `md.Str`; its serialized form is the standard `Str`
serialization, a 2-byte big-endian length followed by the raw bytes. -/
structure DBPutKey where
  data : MStr

def DBPutKey.serialize (k : DBPutKey) : List Nat :=
  packBE 2 k.data.bytes.length ++ k.data.bytes

/-- Modelled from the spec: the concrete subtypes of `dp.DBPutData`
(from `dbput.py`, not among the sources); the broadcast payload carries
the subtype's class name, and `Account.db_put` defaults to `ByteArray`. -/
inductive DBPutDataType
  | ByteArray
deriving DecidableEq

/-- The Python class name of a `DBPutData` subtype. -/
def DBPutDataType.className : DBPutDataType → String
  | .ByteArray => "ByteArray"

/-- Modelled from the spec: the one-byte tag of a `DBPutData` subtype in
its serialized form. -/
def DBPutDataType.idByte : DBPutDataType → Nat
  | .ByteArray => 1

/-- Modelled from the spec: `dp.DBPutData` (from `dbput.py`, not among
the sources): the stored value, declared with a concrete subtype
(`dtype` is the subtype of the instance) and wrapping an `md.Str`. -/
structure DBPutData where
  dtype : DBPutDataType
  data : MStr

/-- Modelled from the spec: `DBPutData.new(data, data_type)` builds the
data object as an instance of the given concrete subtype. -/
def DBPutData.new (s : MStr) (ty : DBPutDataType) : DBPutData := ⟨ty, s⟩

/-- Modelled from the spec: serialized form of the stored value: a 2-byte
length, the subtype tag byte, then the raw bytes. -/
def DBPutData.serialize (d : DBPutData) : List Nat :=
  packBE 2 (d.data.bytes.length + 1) ++ [d.dtype.idByte] ++ d.data.bytes

/-- Class `DBPutTxReq` from `tx_req.py`. -/
structure DBPutTxReq where
  db_key : DBPutKey
  data : DBPutData
  timestamp : Nat
  fee : Nat

/-- Property `DBPutTxReq.data_to_sign` from `tx_req.py`. -/
def DBPutTxReq.data_to_sign (r : DBPutTxReq) : List Nat :=
  TxType.DB_PUT.serialize
  ++ r.db_key.serialize
  ++ r.data.serialize
  ++ packBE 8 r.fee
  ++ packBE 2 FEE_SCALE
  ++ packBE 8 r.timestamp

def DBPutTxReq.sign (calcSig : List Nat → List Nat → List Nat → List Nat)
    (rand64 : List Nat) (r : DBPutTxReq) (kp : KeyPair) : List Nat :=
  curveSign calcSig rand64 kp.pri r.data_to_sign

/-- Method `DBPutTxReq.to_broadcast_put_payload` from `tx_req.py`: `dbKey` and
`data` are projected as the wrapped plain text (`.data.data`), and
`dataType` is the class name of the data object's concrete subtype. -/
def DBPutTxReq.to_broadcast_put_payload
    (calcSig : List Nat → List Nat → List Nat → List Nat) (rand64 : List Nat)
    (r : DBPutTxReq) (kp : KeyPair) : List (String × PValue) :=
  [ ("senderPublicKey", .str (b58Encode kp.pub)),
    ("dbKey", .str r.db_key.data.data),
    ("dataType", .str r.data.dtype.className),
    ("data", .str r.data.data.data),
    ("fee", .int r.fee),
    ("feeScale", .int FEE_SCALE),
    ("timestamp", .int r.timestamp),
    ("signature", .str (b58Encode (r.sign calcSig rand64 kp))) ]

/-- Claim C1: a Payment request with a 26-byte recipient address, amount
`500000000`, timestamp `1690000000000000000`, empty attachment and fee
`10000000` has signing bytes `0x02`, then the timestamp, the amount and
the fee each as 8-byte big-endian integers, then `0x0064`, then the 26
raw address bytes, then `0x0000`. -/
theorem payment_data_to_sign_example (addr : MAddr)
    (h : addr.bytes.length = 26) :
    (PaymentTxReq.mk addr 500000000 1690000000000000000 ⟨[]⟩ 10000000).data_to_sign
      = [2]
        ++ [23, 116, 22, 11, 198, 105, 0, 0]
        ++ [0, 0, 0, 0, 29, 205, 101, 0]
        ++ [0, 0, 0, 0, 0, 152, 150, 128]
        ++ [0, 100]
        ++ addr.bytes
        ++ [0, 0]
      ∧ [23, 116, 22, 11, 198, 105, 0, 0] = packBE 8 1690000000000000000
      ∧ [0, 0, 0, 0, 29, 205, 101, 0] = packBE 8 500000000
      ∧ [0, 0, 0, 0, 0, 152, 150, 128] = packBE 8 10000000 := by
  refine ⟨?_, by decide, by decide, by decide⟩
  show TxType.PAYMENT.serialize ++ packBE 8 1690000000000000000
      ++ packBE 8 500000000 ++ packBE 8 10000000 ++ packBE 2 FEE_SCALE
      ++ addr.bytes ++ packBE 2 (MStr.data ⟨[]⟩).length ++ ([] : List Nat) = _
  have h2 : packBE 2 (MStr.data ⟨[]⟩).length = [0, 0] := by decide
  rw [h2]
  have ht : packBE 8 1690000000000000000 = [23, 116, 22, 11, 198, 105, 0, 0] := by decide
  have ha : packBE 8 500000000 = [0, 0, 0, 0, 29, 205, 101, 0] := by decide
  have hf : packBE 8 10000000 = [0, 0, 0, 0, 0, 152, 150, 128] := by decide
  rw [ht, ha, hf]
  simp [TxType.serialize, TxType.value, FEE_SCALE, packBE]

/-- Witness for C1 at a concrete 26-byte address. -/
theorem payment_data_to_sign_example_witness :
    (MAddr.mk (List.replicate 26 7)).bytes.length = 26
    ∧ (PaymentTxReq.mk (MAddr.mk (List.replicate 26 7)) 500000000
        1690000000000000000 ⟨[]⟩ 10000000).data_to_sign
      = [2]
        ++ [23, 116, 22, 11, 198, 105, 0, 0]
        ++ [0, 0, 0, 0, 29, 205, 101, 0]
        ++ [0, 0, 0, 0, 0, 152, 150, 128]
        ++ [0, 100]
        ++ (MAddr.mk (List.replicate 26 7)).bytes
        ++ [0, 0] :=
  ⟨by decide, (payment_data_to_sign_example (MAddr.mk (List.replicate 26 7)) (by decide)).1⟩

/-- Claim C5: for every transaction-request variant and all field values,
the first byte of the signing bytes is the variant's fixed one-byte
discriminant: Payment=2, Lease=3, LeaseCancel=4, RegisterContract=8,
ExecuteContractFunction=9, DBPut=10. -/
theorem data_to_sign_first_byte_is_discriminant :
    (∀ r : PaymentTxReq, r.data_to_sign.head? = some TxType.PAYMENT.value)
    ∧ (∀ r : LeaseTxReq, r.data_to_sign.head? = some TxType.LEASE.value)
    ∧ (∀ r : LeaseCancelTxReq, r.data_to_sign.head? = some TxType.LEASE_CANCEL.value)
    ∧ (∀ r : RegCtrtTxReq, r.data_to_sign.head? = some TxType.REGISTER_CONTRACT.value)
    ∧ (∀ r : ExecCtrtFuncTxReq,
        r.data_to_sign.head? = some TxType.EXECUTE_CONTRACT_FUNCTION.value)
    ∧ (∀ r : DBPutTxReq, r.data_to_sign.head? = some TxType.DB_PUT.value)
    ∧ TxType.PAYMENT.value = 2 ∧ TxType.LEASE.value = 3
    ∧ TxType.LEASE_CANCEL.value = 4 ∧ TxType.REGISTER_CONTRACT.value = 8
    ∧ TxType.EXECUTE_CONTRACT_FUNCTION.value = 9 ∧ TxType.DB_PUT.value = 10 := by
  exact ⟨fun r => rfl, fun r => rfl, fun r => rfl, fun r => rfl, fun r => rfl,
    fun r => rfl, rfl, rfl, rfl, rfl, rfl, rfl⟩

/-- Claim C6: in every variant's signing bytes the fee scale is the
literal 100 as a big-endian 2-byte value, placed immediately after the
8-byte big-endian fee field, for every fee value. -/
theorem fee_scale_hundred_after_fee :
    packBE 2 FEE_SCALE = [0, 100]
    ∧ (∀ r : PaymentTxReq, (packBE 8 r.fee).length = 8 ∧ ∃ pre suf,
        r.data_to_sign = pre ++ packBE 8 r.fee ++ [0, 100] ++ suf)
    ∧ (∀ r : LeaseTxReq, (packBE 8 r.fee).length = 8 ∧ ∃ pre suf,
        r.data_to_sign = pre ++ packBE 8 r.fee ++ [0, 100] ++ suf)
    ∧ (∀ r : LeaseCancelTxReq, (packBE 8 r.fee).length = 8 ∧ ∃ pre suf,
        r.data_to_sign = pre ++ packBE 8 r.fee ++ [0, 100] ++ suf)
    ∧ (∀ r : RegCtrtTxReq, (packBE 8 r.fee).length = 8 ∧ ∃ pre suf,
        r.data_to_sign = pre ++ packBE 8 r.fee ++ [0, 100] ++ suf)
    ∧ (∀ r : ExecCtrtFuncTxReq, (packBE 8 r.fee).length = 8 ∧ ∃ pre suf,
        r.data_to_sign = pre ++ packBE 8 r.fee ++ [0, 100] ++ suf)
    ∧ (∀ r : DBPutTxReq, (packBE 8 r.fee).length = 8 ∧ ∃ pre suf,
        r.data_to_sign = pre ++ packBE 8 r.fee ++ [0, 100] ++ suf) := by
  have h100 : packBE 2 FEE_SCALE = [0, 100] := by decide
  refine ⟨h100, ?_, ?_, ?_, ?_, ?_, ?_⟩
  · intro r
    refine ⟨packBE_length 8 r.fee,
      TxType.PAYMENT.serialize ++ packBE 8 r.timestamp ++ packBE 8 r.amount,
      r.recipient.bytes ++ packBE 2 r.attachment.data.length ++ r.attachment.bytes, ?_⟩
    simp [PaymentTxReq.data_to_sign, h100]
  · intro r
    refine ⟨packBE_length 8 r.fee,
      TxType.LEASE.serialize ++ r.supernode_addr.bytes ++ packBE 8 r.amount,
      packBE 8 r.timestamp, ?_⟩
    simp [LeaseTxReq.data_to_sign, h100]
  · intro r
    refine ⟨packBE_length 8 r.fee, TxType.LEASE_CANCEL.serialize,
      packBE 8 r.timestamp ++ r.leasing_tx_id.bytes, ?_⟩
    simp [LeaseCancelTxReq.data_to_sign, h100]
  · intro r
    refine ⟨packBE_length 8 r.fee,
      TxType.REGISTER_CONTRACT.serialize
        ++ packBE 2 r.ctrt_meta.serialize.length ++ r.ctrt_meta.serialize
        ++ packBE 2 r.data_stack.serialize.length ++ r.data_stack.serialize
        ++ packBE 2 r.description.data.length ++ r.description.bytes,
      packBE 8 r.timestamp, ?_⟩
    simp [RegCtrtTxReq.data_to_sign, h100]
  · intro r
    refine ⟨packBE_length 8 r.fee,
      TxType.EXECUTE_CONTRACT_FUNCTION.serialize
        ++ r.ctrt_id.bytes ++ r.func_id.serialize
        ++ packBE 2 r.data_stack.serialize.length ++ r.data_stack.serialize
        ++ packBE 2 r.attachment.data.length ++ r.attachment.bytes,
      packBE 8 r.timestamp, ?_⟩
    simp [ExecCtrtFuncTxReq.data_to_sign, h100]
  · intro r
    refine ⟨packBE_length 8 r.fee,
      TxType.DB_PUT.serialize ++ r.db_key.serialize ++ r.data.serialize,
      packBE 8 r.timestamp, ?_⟩
    simp [DBPutTxReq.data_to_sign, h100]

/-- Claim C2: in the signing bytes of every variant, every variable-length
field (attachment, description, contract metadata, data stack) appears
as a 2-byte big-endian length prefix that decodes to the exact byte
length of the payload immediately after it (exact whenever that length
fits 16 bits), and an empty field yields the prefix `0x0000` followed by
no payload bytes. -/
theorem var_len_field_pfx :
    (∀ n : Nat, n < 65536 → bytesToNat (packBE 2 n) = n)
    ∧ packBE 2 0 = [0, 0]
    ∧ (∀ r : PaymentTxReq,
        r.data_to_sign
          = [2] ++ packBE 8 r.timestamp ++ packBE 8 r.amount ++ packBE 8 r.fee
            ++ [0, 100] ++ r.recipient.bytes
            ++ (packBE 2 r.attachment.bytes.length ++ r.attachment.bytes))
    ∧ (∀ r : RegCtrtTxReq,
        r.data_to_sign
          = [8]
            ++ (packBE 2 r.ctrt_meta.serialized.length ++ r.ctrt_meta.serialized)
            ++ (packBE 2 r.data_stack.serialized.length ++ r.data_stack.serialized)
            ++ (packBE 2 r.description.bytes.length ++ r.description.bytes)
            ++ packBE 8 r.fee ++ [0, 100] ++ packBE 8 r.timestamp)
    ∧ (∀ r : ExecCtrtFuncTxReq,
        r.data_to_sign
          = [9] ++ r.ctrt_id.bytes ++ r.func_id.serialize
            ++ (packBE 2 r.data_stack.serialized.length ++ r.data_stack.serialized)
            ++ (packBE 2 r.attachment.bytes.length ++ r.attachment.bytes)
            ++ packBE 8 r.fee ++ [0, 100] ++ packBE 8 r.timestamp) := by
  have h100 : packBE 2 FEE_SCALE = [0, 100] := by decide
  refine ⟨bytesToNat_packBE_two, by decide, ?_, ?_, ?_⟩
  · intro r
    simp [PaymentTxReq.data_to_sign, h100, MStr.data_length, TxType.serialize,
      TxType.value, packBE, FEE_SCALE]
  · intro r
    simp [RegCtrtTxReq.data_to_sign, h100, MStr.data_length, TxType.serialize,
      TxType.value, packBE, FEE_SCALE, CtrtMeta.serialize, DataStack.serialize]
  · intro r
    simp [ExecCtrtFuncTxReq.data_to_sign, h100, MStr.data_length, TxType.serialize,
      TxType.value, packBE, FEE_SCALE, DataStack.serialize]

/-- Witness for C2: the 2-byte length prefix of a 300-byte payload
decodes back to 300. -/
theorem var_len_field_pfx_witness : bytesToNat (packBE 2 300) = 300 :=
  var_len_field_pfx.1 300 (by decide)

/-- Claim C4: the signing bytes of every ExecuteContractFunction request
are, after the 1-byte discriminant: the raw contract id, the serialized
function index, 2-byte length prefix plus data stack, 2-byte length
prefix plus attachment, the fee as 8 bytes big-endian, the fee scale as
2 bytes, and the timestamp as 8 bytes big-endian, in that order. -/
theorem exec_ctrt_func_data_to_sign_layout :
    ∀ r : ExecCtrtFuncTxReq,
      r.data_to_sign
        = [9] ++ r.ctrt_id.bytes ++ r.func_id.serialize
          ++ (packBE 2 r.data_stack.serialize.length ++ r.data_stack.serialize)
          ++ (packBE 2 r.attachment.bytes.length ++ r.attachment.bytes)
          ++ packBE 8 r.fee ++ packBE 2 FEE_SCALE ++ packBE 8 r.timestamp
      ∧ (packBE 8 r.fee).length = 8
      ∧ (packBE 2 FEE_SCALE).length = 2
      ∧ (packBE 8 r.timestamp).length = 8
      ∧ (packBE 2 r.data_stack.serialize.length).length = 2
      ∧ (packBE 2 r.attachment.bytes.length).length = 2 := by
  intro r
  refine ⟨?_, packBE_length 8 r.fee, packBE_length 2 FEE_SCALE,
    packBE_length 8 r.timestamp, packBE_length 2 _, packBE_length 2 _⟩
  simp [ExecCtrtFuncTxReq.data_to_sign, MStr.data_length, TxType.serialize,
    TxType.value, packBE]

/-- Claim C7: for every variant and every key pair, the `signature` field
of the broadcast payload is the base58 text encoding of the signature
the signing engine produces from the key pair's private key over that
request's `data_to_sign` (the engine's primitive `calcSig` and its fresh
random bytes `rand64` are explicit parameters here). -/
theorem broadcast_signature_is_b58_sign_of_data_to_sign :
    ∀ (calcSig : List Nat → List Nat → List Nat → List Nat)
      (rand64 : List Nat) (kp : KeyPair),
      (∀ r : PaymentTxReq,
        getKey (r.to_broadcast_payment_payload calcSig rand64 kp) "signature"
          = some (.str (b58Encode (calcSig rand64 kp.pri r.data_to_sign))))
      ∧ (∀ r : LeaseTxReq,
        getKey (r.to_broadcast_leasing_payload calcSig rand64 kp) "signature"
          = some (.str (b58Encode (calcSig rand64 kp.pri r.data_to_sign))))
      ∧ (∀ r : LeaseCancelTxReq,
        getKey (r.to_broadcast_cancel_payload calcSig rand64 kp) "signature"
          = some (.str (b58Encode (calcSig rand64 kp.pri r.data_to_sign))))
      ∧ (∀ r : RegCtrtTxReq,
        getKey (r.to_broadcast_register_payload calcSig rand64 kp) "signature"
          = some (.str (b58Encode (calcSig rand64 kp.pri r.data_to_sign))))
      ∧ (∀ r : ExecCtrtFuncTxReq,
        getKey (r.to_broadcast_execute_payload calcSig rand64 kp) "signature"
          = some (.str (b58Encode (calcSig rand64 kp.pri r.data_to_sign))))
      ∧ (∀ r : DBPutTxReq,
        getKey (r.to_broadcast_put_payload calcSig rand64 kp) "signature"
          = some (.str (b58Encode (calcSig rand64 kp.pri r.data_to_sign)))) := by
  intro calcSig rand64 kp
  refine ⟨fun r => ?_, fun r => ?_, fun r => ?_, fun r => ?_, fun r => ?_, fun r => ?_⟩
  · simp [getKey, PaymentTxReq.to_broadcast_payment_payload, PaymentTxReq.sign,
      curveSign, List.find?]
  · simp [getKey, LeaseTxReq.to_broadcast_leasing_payload, LeaseTxReq.sign,
      curveSign, List.find?]
  · simp [getKey, LeaseCancelTxReq.to_broadcast_cancel_payload, LeaseCancelTxReq.sign,
      curveSign, List.find?]
  · simp [getKey, RegCtrtTxReq.to_broadcast_register_payload, RegCtrtTxReq.sign,
      curveSign, List.find?]
  · simp [getKey, ExecCtrtFuncTxReq.to_broadcast_execute_payload, ExecCtrtFuncTxReq.sign,
      curveSign, List.find?]
  · simp [getKey, DBPutTxReq.to_broadcast_put_payload, DBPutTxReq.sign,
      curveSign, List.find?]

/-- Claim C3, counterexample: the claim says the `description` field of the
RegisterContract broadcast payload is base58-text-encoded; on a request
whose description has bytes `[97, 98]` ("ab"), the payload carries the
plain text, which differs from the base58 encoding of those bytes. -/
theorem broadcast_description_not_b58 :
    ¬ getKey
        (RegCtrtTxReq.to_broadcast_register_payload (fun _ _ _ => []) []
          (RegCtrtTxReq.mk ⟨[]⟩ ⟨[]⟩ 0 ⟨[97, 98]⟩ 0) ⟨[], []⟩)
        "description"
      = some (.str (b58Encode [97, 98])) := by decide

/-- Claim C3, amended: in the broadcast payloads, `attachment`,
`signature`, the contract metadata (`contract`), the init data
(`initData`) and `functionData` are base58-text-encoded; `description`,
`dbKey` and `data` appear as plain text; and the integer fields
`amount`, `fee`, `feeScale`, `timestamp` and `functionIndex` appear as
plain numbers. -/
theorem broadcast_payload_field_encodings :
    ∀ (calcSig : List Nat → List Nat → List Nat → List Nat)
      (rand64 : List Nat) (kp : KeyPair),
      (∀ r : PaymentTxReq,
        getKey (r.to_broadcast_payment_payload calcSig rand64 kp) "attachment"
            = some (.str (b58Encode r.attachment.bytes))
        ∧ getKey (r.to_broadcast_payment_payload calcSig rand64 kp) "amount"
            = some (.int r.amount)
        ∧ getKey (r.to_broadcast_payment_payload calcSig rand64 kp) "fee"
            = some (.int r.fee)
        ∧ getKey (r.to_broadcast_payment_payload calcSig rand64 kp) "feeScale"
            = some (.int 100)
        ∧ getKey (r.to_broadcast_payment_payload calcSig rand64 kp) "timestamp"
            = some (.int r.timestamp))
      ∧ (∀ r : RegCtrtTxReq,
        getKey (r.to_broadcast_register_payload calcSig rand64 kp) "contract"
            = some (.str (b58Encode r.ctrt_meta.serialized))
        ∧ getKey (r.to_broadcast_register_payload calcSig rand64 kp) "initData"
            = some (.str (b58Encode r.data_stack.serialized))
        ∧ getKey (r.to_broadcast_register_payload calcSig rand64 kp) "description"
            = some (.str (latin1Str r.description.bytes)))
      ∧ (∀ r : ExecCtrtFuncTxReq,
        getKey (r.to_broadcast_execute_payload calcSig rand64 kp) "functionData"
            = some (.str (b58Encode r.data_stack.serialized))
        ∧ getKey (r.to_broadcast_execute_payload calcSig rand64 kp) "attachment"
            = some (.str (b58Encode r.attachment.bytes))
        ∧ getKey (r.to_broadcast_execute_payload calcSig rand64 kp) "functionIndex"
            = some (.int r.func_id.value))
      ∧ (∀ r : DBPutTxReq,
        getKey (r.to_broadcast_put_payload calcSig rand64 kp) "dbKey"
            = some (.str (latin1Str r.db_key.data.bytes))
        ∧ getKey (r.to_broadcast_put_payload calcSig rand64 kp) "data"
            = some (.str (latin1Str r.data.data.bytes))
        ∧ getKey (r.to_broadcast_put_payload calcSig rand64 kp) "signature"
            = some (.str (b58Encode (curveSign calcSig rand64 kp.pri r.data_to_sign)))) := by
  intro calcSig rand64 kp
  refine ⟨fun r => ?_, fun r => ?_, fun r => ?_, fun r => ?_⟩
  · refine ⟨?_, ?_, ?_, ?_, ?_⟩ <;>
      simp [getKey, PaymentTxReq.to_broadcast_payment_payload, List.find?,
        MStr.b58_str, FEE_SCALE]
  · refine ⟨?_, ?_, ?_⟩ <;>
      simp [getKey, RegCtrtTxReq.to_broadcast_register_payload, List.find?,
        CtrtMeta.serialize, DataStack.serialize, MStr.data]
  · refine ⟨?_, ?_, ?_⟩ <;>
      simp [getKey, ExecCtrtFuncTxReq.to_broadcast_execute_payload, List.find?,
        DataStack.serialize, MStr.b58_str]
  · refine ⟨?_, ?_, ?_⟩ <;>
      simp [getKey, DBPutTxReq.to_broadcast_put_payload, DBPutTxReq.sign,
        List.find?, MStr.data]

/-- Claim C10: the `dataType` field of the DBPut broadcast payload is
exactly the class name of the concrete `DBPutData` subtype of the data
object; constructing the data with `DBPutData.new` makes that subtype
the one passed at construction, and the default byte-array subtype
yields the string "ByteArray". -/
theorem dbput_broadcast_data_type_is_class_name :
    (∀ (calcSig : List Nat → List Nat → List Nat → List Nat)
      (rand64 : List Nat) (kp : KeyPair) (r : DBPutTxReq),
      getKey (r.to_broadcast_put_payload calcSig rand64 kp) "dataType"
        = some (.str r.data.dtype.className))
    ∧ (∀ (s : MStr) (ty : DBPutDataType), (DBPutData.new s ty).dtype = ty)
    ∧ DBPutDataType.className .ByteArray = "ByteArray" := by
  refine ⟨fun calcSig rand64 kp r => ?_, fun s ty => rfl, rfl⟩
  simp [getKey, DBPutTxReq.to_broadcast_put_payload, List.find?]

end PyVSdk
